import Mathlib

/-!
Shallow embedding of the market-intelligence-patterns repository
(TypeScript) in Lean 4.

Conventions of the embedding:
* TypeScript strings are `String`; optional fields are `Option _`.
* JavaScript falsiness of a string value (`undefined` or `""`) is the
  predicate `presentS = false` for `Option String`, and equality with `""`
  for plain `String` fields.
* Reading the current clock (`new Date()`) is made explicit: functions that
  read the clock take a `now` argument.  ISO-8601 timestamps are modelled by
  an injective rendering `toISO` of an epoch-milliseconds `Nat`.
* Exceptions (`throw`) are modelled with `Except ApiError _`; for the
  stateful `TradeFlowService` the outcome record also returns the resulting
  cache contents and the number of outbound network calls, so that
  "state unchanged, no call issued" is a provable statement.
* Free-form `details` objects attached to errors are modelled by the small
  inductive `DVal` covering exactly the shapes the repository attaches.
-/

namespace MIP

/-- JS truthiness of an optional string: `undefined` and `""` are falsy. -/
def presentS : Option String → Bool
  | some s => s ≠ ""
  | none => false

/-- JS `a || b` for an optional string `a` with empty-string falsiness. -/
def orElseS (a : Option String) (b : String) : String :=
  match a with
  | some s => if s = "" then b else s
  | none => b

/-- JS `a || b` turned into an `Option`: keep `a` only when truthy. -/
def truthyS (a : Option String) : Option String :=
  match a with
  | some s => if s = "" then none else some s
  | none => none

/-- Error codes of `src/types/api.types.ts` (`enum ErrorCode`). -/
inductive ErrorCode where
  | VALIDATION_ERROR
  | NOT_FOUND
  | UNAUTHORIZED
  | FORBIDDEN
  | INTERNAL_SERVER_ERROR
  | SERVICE_UNAVAILABLE
  | EXTERNAL_API_ERROR
  deriving DecidableEq, Repr

/-- `MarketIntelligenceParams` flattened: the union of all request fields,
with `type` as the discriminant.  A field that the variant does not use or
that the caller omitted is `none`. -/
structure MIParams where
  type : Option String
  hs_code : Option String
  market : Option String
  year : Option Nat
  origin : Option String
  destination : Option String
  product_category : Option String
  industry : Option String
  deriving DecidableEq, Repr

/-- `TradeFlowParams` as consumed by `TradeFlowService.getTradeFlow`
(required string fields; empty string models an absent/falsy value). -/
structure TFParams where
  hs_code : String
  market : String
  year : Option Nat
  deriving DecidableEq, Repr

/-- The upstream response body, of which the interceptor only ever reads
`.message` (`error.response.data as any`). -/
structure UpstreamBody where
  message : Option String
  deriving DecidableEq, Repr

/-- Values placed in an error's free-form `details` record. -/
inductive DVal where
  | str (s : String)
  | num (n : Nat)
  | reqParams (p : MIParams)
  | tfParams (p : TFParams)
  | upstream (b : Option UpstreamBody)
  deriving DecidableEq, Repr

/-- `ApiError` of `src/utils/error.utils.ts`: message, HTTP status,
machine-readable code, optional structured details. -/
structure ApiError where
  message : String
  status : Nat
  error_code : ErrorCode
  details : List (String × DVal)
  deriving DecidableEq, Repr

/-- `ValidationError` (400, VALIDATION_ERROR). -/
def ValidationError (message : String) (details : List (String × DVal)) : ApiError :=
  { message := message, status := 400, error_code := .VALIDATION_ERROR, details := details }

/-- `NotFoundError` (404, NOT_FOUND). -/
def NotFoundError (message : String) (details : List (String × DVal)) : ApiError :=
  { message := message, status := 404, error_code := .NOT_FOUND, details := details }

/-- `InternalServerError` (500, INTERNAL_SERVER_ERROR). -/
def InternalServerError (message : String) (details : List (String × DVal)) : ApiError :=
  { message := message, status := 500, error_code := .INTERNAL_SERVER_ERROR, details := details }

/-- `ExternalApiError` (502, EXTERNAL_API_ERROR). -/
def ExternalApiError (message : String) (details : List (String × DVal)) : ApiError :=
  { message := message, status := 502, error_code := .EXTERNAL_API_ERROR, details := details }

/-- `ResponseMetadata` of `src/types/api.types.ts`. -/
structure ResponseMetadata where
  data_completeness : String
  last_updated : String
  source : String
  confidence_score : Option ℚ
  deriving DecidableEq, Repr

/-- `Partial<ResponseMetadata>` passed as overrides to the builders. -/
structure MetadataOverrides where
  data_completeness : Option String
  last_updated : Option String
  source : Option String
  confidence_score : Option ℚ
  deriving DecidableEq, Repr

/-- The empty overrides object `{}`. -/
def noOverrides : MetadataOverrides :=
  { data_completeness := none, last_updated := none, source := none, confidence_score := none }

/-- The `options` argument of the response builders. -/
structure SuccessOptions where
  status : Option Nat
  message : Option String
  metadata : MetadataOverrides
  deriving DecidableEq, Repr

/-- The default `options = {}`. -/
def noOptions : SuccessOptions :=
  { status := none, message := none, metadata := noOverrides }

/-- `ApiResponse<T>` success envelope. -/
structure ApiResponse (T : Type) where
  status : Nat
  data : T
  message : Option String
  metadata : ResponseMetadata
  deriving DecidableEq, Repr

/-- `createSuccessResponse` of `src/utils/response.utils.ts`.  `now` is the
ISO rendering of the current clock; the metadata merge keeps a
caller-supplied truthy `last_updated` and otherwise stamps `now`; an empty
`message` is dropped (`...(message && { message })`). -/
def createSuccessResponse {T : Type} (data : T) (options : SuccessOptions) (now : String) :
    ApiResponse T :=
  { status := options.status.getD 200
    data := data
    message := truthyS options.message
    metadata :=
      { data_completeness := (options.metadata.data_completeness).getD "complete"
        source := (options.metadata.source).getD "API"
        last_updated := orElseS options.metadata.last_updated now
        confidence_score := options.metadata.confidence_score } }

/-- `createCachedResponse`: forces `source := "Cache"` and
`last_updated := cachedTimestamp` on top of the caller's overrides. -/
def createCachedResponse {T : Type} (data : T) (cachedTimestamp : String)
    (options : SuccessOptions) (now : String) : ApiResponse T :=
  createSuccessResponse data
    { options with
      metadata :=
        { options.metadata with
          source := some "Cache"
          last_updated := some cachedTimestamp } }
    now

/-- `ApiErrorResponse`: the error envelope; `data` is always `null`,
modelled as `Option Unit` fixed to `none` by `toResponse`. -/
structure ApiErrorResponse where
  status : Nat
  data : Option Unit
  message : String
  error_code : ErrorCode
  details : List (String × DVal)
  metadata : ResponseMetadata
  deriving DecidableEq, Repr

/-- `ApiError.toResponse`. -/
def ApiError.toResponse (e : ApiError) (now : String) : ApiErrorResponse :=
  { status := e.status
    data := none
    message := e.message
    error_code := e.error_code
    details := e.details
    metadata :=
      { data_completeness := "incomplete"
        last_updated := now
        source := "Error"
        confidence_score := none } }

/-- The universe of values a `catch (error)` can observe: a taxonomy error,
a plain JS `Error` (whose V8 `stack` string is `"Error: <message>\n<trace>"`),
or any other value, carried as its `String(error)` rendering. -/
inductive Thrown where
  | api (e : ApiError)
  | jsError (message : String) (trace : String)
  | other (description : String)
  deriving DecidableEq, Repr

/-- V8 renders `Error.stack` with the message on its first line. -/
def errStack (message trace : String) : String :=
  "Error: " ++ message ++ "\n" ++ trace

/-- `isApiError` type guard. -/
def isApiError : Thrown → Bool
  | .api _ => true
  | _ => false

/-- `handleError` of `src/utils/response.utils.ts` (error.utils part):
taxonomy errors convert via `toResponse`; anything else is wrapped as an
`InternalServerError` with `original_error` describing the thrown value. -/
def handleError (error : Thrown) (now : String) : ApiErrorResponse :=
  match error with
  | .api e => e.toResponse now
  | .jsError msg trace =>
      (InternalServerError msg [("original_error", .str (errStack msg trace))]).toResponse now
  | .other v =>
      (InternalServerError "An unexpected error occurred" [("original_error", .str v)]).toResponse now

/-! ## WitsClient (`src/services/market-intelligence/wits-client.ts`) -/

/-- A failed upstream outcome as seen by the axios error interceptor:
either no response was received (`response = none`, with the transport
error's `message`), or a response with a status and a (possibly absent)
parsed body. -/
structure UpstreamResponse where
  status : Nat
  body : Option UpstreamBody
  deriving DecidableEq, Repr

/-- The `AxiosError` the interceptor's rejection callback receives. -/
structure UpstreamFailure where
  response : Option UpstreamResponse
  errMessage : String
  deriving DecidableEq, Repr

/-- The upstream body's `message` after JS truthiness
(`data.message || _` treats a missing or empty message as absent). -/
def bodyMessage (r : UpstreamResponse) : Option String :=
  truthyS (r.body.bind (fun b => b.message))

/-- The rejection callback installed by
`WitsClient.setupResponseInterceptors`: translates every failing outbound
call into one taxonomy error. -/
def interceptResponseError (error : UpstreamFailure) : ApiError :=
  match error.response with
  | none =>
      ExternalApiError "WITS API is unreachable" [("originalError", .str error.errMessage)]
  | some r =>
      if r.status = 400 then
        ValidationError ((bodyMessage r).getD "Invalid request to WITS API")
          [("originalError", .upstream r.body)]
      else if r.status = 404 then
        ValidationError "The requested resource was not found in WITS API"
          [("originalError", .upstream r.body)]
      else if 500 ≤ r.status then
        ExternalApiError ("WITS API server error: " ++ (bodyMessage r).getD (toString r.status))
          [("originalError", .upstream r.body)]
      else
        ExternalApiError ("WITS API error: " ++ (bodyMessage r).getD error.errMessage)
          [("originalError",
            match r.body with
            | some b => .upstream (some b)
            | none => .str error.errMessage),
           ("status", .num r.status)]

/-- JS `String.prototype.toUpperCase()`: uppercase every character. -/
def toUpperCase (s : String) : String :=
  String.mk (s.data.map Char.toUpper)

/-- The `countryCodeMap` built in the `WitsClient` constructor. -/
def countryCodeMap : List (String × String) :=
  [("UAE", "ARE"), ("USA", "USA"), ("UK", "GBR"), ("WORLD", "WLD"), ("WLD", "WLD")]

/-- `Map.get` on an association list. -/
def mapGet (m : List (String × String)) (k : String) : Option String :=
  (m.find? (fun kv => kv.1 == k)).map (fun kv => kv.2)

/-- `WitsClient.getCountryCode`: empty input defaults to the world code;
otherwise look up the uppercased token; a truthy mapped code is returned,
anything else falls through to the original token unchanged. -/
def getCountryCode (market : String) : String :=
  if market = "" then "WLD"
  else
    match mapGet countryCodeMap (toUpperCase market) with
    | some code => if code = "" then market else code
    | none => market

/-- `WitsTradeFlowParams`. -/
structure WitsTradeFlowParams where
  reporter : String
  partner : String
  productCode : String
  year : Option Nat
  deriving DecidableEq, Repr

/-- `WitsTradeFlowResponse`. -/
structure WitsTradeFlowResponse where
  reporter : String
  partner : String
  productCode : String
  year : Nat
  tradeValue : Nat
  netWeight : Option Nat
  quantity : Option Nat
  tradeFlow : String
  deriving DecidableEq, Repr

/-- `WitsClient.normalizeTradeFlowResponse`: spread the response and
overwrite `partner` with the caller's original market token. -/
def normalizeTradeFlowResponse (response : WitsTradeFlowResponse) (market : String) :
    WitsTradeFlowResponse :=
  { response with partner := market }

/-! ## Request model and type guards
(`src/types/market-intelligence.types.ts`) -/

/-- `isTradeFlowParams`. -/
def isTradeFlowParams (params : MIParams) : Bool :=
  params.type == some "trade_flow"

/-- `isTariffParams`. -/
def isTariffParams (params : MIParams) : Bool :=
  params.type == some "tariff"

/-- `isMarketSizeParams`. -/
def isMarketSizeParams (params : MIParams) : Bool :=
  params.type == some "market_size"

/-- `isBuyersParams`. -/
def isBuyersParams (params : MIParams) : Bool :=
  params.type == some "buyers"

/-- `isCompetitiveLandscapeParams`. -/
def isCompetitiveLandscapeParams (params : MIParams) : Bool :=
  params.type == some "competitive_landscape"

/-- `top_exporters` entries. -/
structure Exporter where
  country : String
  market_share : ℚ
  deriving DecidableEq, Repr

/-- `TradeFlowData`. -/
structure TradeFlowData where
  import_value_usd : Nat
  export_value_usd : Nat
  growth_rate : ℚ
  top_exporters : List Exporter
  import_volume : Nat
  deriving DecidableEq, Repr

/-- `trade_agreements` entries of `TariffData`. -/
structure TradeAgreement where
  name : String
  benefits : String
  deriving DecidableEq, Repr

/-- `TariffData`. -/
structure TariffData where
  tariff_rate : ℚ
  quota_restrictions : Option String
  trade_agreements : List TradeAgreement
  deriving DecidableEq, Repr

/-- `MarketSizeData`. -/
structure MarketSizeData where
  market_value_usd : String
  growth_rate : String
  popular_categories : List String
  deriving DecidableEq, Repr

/-- `buyers` entries of `BuyersData`. -/
structure Buyer where
  name : String
  contact : String
  size : String
  interests : List String
  deriving DecidableEq, Repr

/-- `BuyersData`. -/
structure BuyersData where
  buyers : List Buyer
  deriving DecidableEq, Repr

/-- `competitors` entries of `CompetitiveLandscapeData`. -/
structure Competitor where
  name : String
  market_share : ℚ
  origin : String
  strengths : List String
  deriving DecidableEq, Repr

/-- `price_points` of `CompetitiveLandscapeData`. -/
structure PricePoints where
  low : String
  average : String
  premium : String
  deriving DecidableEq, Repr

/-- `CompetitiveLandscapeData`. -/
structure CompetitiveLandscapeData where
  competitors : List Competitor
  price_points : PricePoints
  deriving DecidableEq, Repr

/-- `MarketIntelligenceData`: the union of the five response payloads. -/
inductive MarketIntelligenceData where
  | tradeFlow (d : TradeFlowData)
  | tariff (d : TariffData)
  | marketSize (d : MarketSizeData)
  | buyers (d : BuyersData)
  | competitiveLandscape (d : CompetitiveLandscapeData)
  deriving DecidableEq, Repr

/-! ## MarketIntelligenceHandler
(`src/services/market-intelligence/handler.ts`) -/

/-- The constant payload of `handleTradeFlow`. -/
def tradeFlowExampleData : TradeFlowData :=
  { import_value_usd := 5000000000
    export_value_usd := 3000000000
    growth_rate := 12.5
    top_exporters :=
      [{ country := "China", market_share := 35 },
       { country := "Germany", market_share := 15 },
       { country := "South Africa", market_share := 8 }]
    import_volume := 250000 }

/-- `MarketIntelligenceHandler.handleTradeFlow`. -/
def handleTradeFlow (params : MIParams) (now : String) :
    Except ApiError (ApiResponse MarketIntelligenceData) :=
  if !(presentS params.hs_code) then
    .error (ValidationError "HS code is required for trade flow requests"
      [("params", .reqParams params)])
  else if !(presentS params.market) then
    .error (ValidationError "Market is required for trade flow requests"
      [("params", .reqParams params)])
  else
    .ok (createSuccessResponse (.tradeFlow tradeFlowExampleData)
      { status := none, message := none,
        metadata := { noOverrides with source := some "WITS API", confidence_score := some 0.95 } }
      now)

/-- The constant payload of `handleTariff`. -/
def tariffExampleData : TariffData :=
  { tariff_rate := 5.2
    quota_restrictions := none
    trade_agreements :=
      [{ name := "AfCFTA", benefits := "Reduced tariff rate of 0% for qualifying goods" }] }

/-- `MarketIntelligenceHandler.handleTariff`. -/
def handleTariff (params : MIParams) (now : String) :
    Except ApiError (ApiResponse MarketIntelligenceData) :=
  if !(presentS params.hs_code) then
    .error (ValidationError "HS code is required for tariff requests"
      [("params", .reqParams params)])
  else if !(presentS params.origin) then
    .error (ValidationError "Origin country is required for tariff requests"
      [("params", .reqParams params)])
  else if !(presentS params.destination) then
    .error (ValidationError "Destination country is required for tariff requests"
      [("params", .reqParams params)])
  else
    .ok (createSuccessResponse (.tariff tariffExampleData)
      { status := none, message := none,
        metadata := { noOverrides with source := some "WITS API", confidence_score := some 0.98 } }
      now)

/-- The constant payload of `handleMarketSize`. -/
def marketSizeExampleData : MarketSizeData :=
  { market_value_usd := "8.5 Billion"
    growth_rate := "5%"
    popular_categories := ["canned vegetables", "plant-based meals"] }

/-- `MarketIntelligenceHandler.handleMarketSize`. -/
def handleMarketSize (params : MIParams) (now : String) :
    Except ApiError (ApiResponse MarketIntelligenceData) :=
  if !(presentS params.product_category) then
    .error (ValidationError "Product category is required for market size requests"
      [("params", .reqParams params)])
  else if !(presentS params.market) then
    .error (ValidationError "Market is required for market size requests"
      [("params", .reqParams params)])
  else
    .ok (createSuccessResponse (.marketSize marketSizeExampleData)
      { status := none, message := none,
        metadata := { noOverrides with source := some "ITC TradeMap", confidence_score := some 0.93 } }
      now)

/-- The constant payload of `handleBuyers`. -/
def buyersExampleData : BuyersData :=
  { buyers :=
      [{ name := "Almarai", contact := "buyer@almarai.com", size := "Large",
         interests := ["dairy", "beverages"] },
       { name := "Spinneys", contact := "procurement@spinneys.com", size := "Medium",
         interests := ["organic", "health foods"] }] }

/-- `MarketIntelligenceHandler.handleBuyers`. -/
def handleBuyers (params : MIParams) (now : String) :
    Except ApiError (ApiResponse MarketIntelligenceData) :=
  if !(presentS params.industry) then
    .error (ValidationError "Industry is required for buyers requests"
      [("params", .reqParams params)])
  else if !(presentS params.market) then
    .error (ValidationError "Market is required for buyers requests"
      [("params", .reqParams params)])
  else
    .ok (createSuccessResponse (.buyers buyersExampleData)
      { status := none, message := none,
        metadata := { noOverrides with source := some "Internal Trade DB", confidence_score := some 0.87 } }
      now)

/-- The constant payload of `handleCompetitiveLandscape`. -/
def competitiveLandscapeExampleData : CompetitiveLandscapeData :=
  { competitors :=
      [{ name := "Global Foods Inc.", market_share := 32, origin := "USA",
         strengths := ["brand recognition", "distribution network"] },
       { name := "EuroFoods", market_share := 18, origin := "Germany",
         strengths := ["product quality", "organic certification"] }]
    price_points :=
      { low := "$2.50 - $4.00", average := "$4.00 - $6.50", premium := "$6.50 - $12.00" } }

/-- `MarketIntelligenceHandler.handleCompetitiveLandscape`. -/
def handleCompetitiveLandscape (params : MIParams) (now : String) :
    Except ApiError (ApiResponse MarketIntelligenceData) :=
  if !(presentS params.product_category) then
    .error (ValidationError "Product category is required for competitive landscape requests"
      [("params", .reqParams params)])
  else if !(presentS params.market) then
    .error (ValidationError "Market is required for competitive landscape requests"
      [("params", .reqParams params)])
  else
    .ok (createSuccessResponse (.competitiveLandscape competitiveLandscapeExampleData)
      { status := none, message := none,
        metadata := { noOverrides with source := some "Market Research DB", confidence_score := some 0.92 } }
      now)

/-- `MarketIntelligenceHandler.handle`: discriminant presence check, then
the type-guard chain in source order, then the unsupported-type failure. -/
def handle (params : MIParams) (now : String) :
    Except ApiError (ApiResponse MarketIntelligenceData) :=
  if !(presentS params.type) then
    .error (ValidationError "Request type is required" [("params", .reqParams params)])
  else if isTradeFlowParams params then
    handleTradeFlow params now
  else if isTariffParams params then
    handleTariff params now
  else if isMarketSizeParams params then
    handleMarketSize params now
  else if isBuyersParams params then
    handleBuyers params now
  else if isCompetitiveLandscapeParams params then
    handleCompetitiveLandscape params now
  else
    .error (ValidationError ("Unsupported request type: " ++ params.type.getD "")
      [("params", .reqParams params)])

/-! ## TradeFlowService
(`src/services/market-intelligence/trade-flow-service.ts`) -/

/-- `TradeFlowServiceConfig`: default reporter and cache TTL (ms). -/
structure TradeFlowServiceConfig where
  defaultReporter : String
  cacheTtl : Nat
  deriving DecidableEq, Repr

/-- `CacheItem`: stored payload plus creation time.  The source stores an
ISO string; the embedding keeps the epoch milliseconds, whose ISO rendering
is `toISO` (the string round-trips through `new Date(_).getTime()`). -/
structure CacheItem where
  data : TradeFlowData
  timestamp : Nat
  deriving DecidableEq, Repr

/-- Injective rendering of an epoch-milliseconds clock value as its
ISO-8601 string (`Date.prototype.toISOString`); like every real ISO date
string it is nonempty, which the metadata merge's truthiness check reads. -/
def toISO (t : Nat) : String :=
  "ISO:" ++ toString t

/-- The service's private cache `Map`, as an association list. -/
abbrev TFCache := List (String × CacheItem)

/-- `Map.get` on the cache. -/
def cacheGet (cache : TFCache) (key : String) : Option CacheItem :=
  (cache.find? (fun kv => kv.1 == key)).map (fun kv => kv.2)

/-- `Map.set` on the cache: overwrite the existing binding or append. -/
def cacheSet (cache : TFCache) (key : String) (item : CacheItem) : TFCache :=
  match cache with
  | [] => [(key, item)]
  | kv :: rest =>
      if kv.1 == key then (key, item) :: rest else kv :: cacheSet rest key item

/-- `TradeFlowService.getCacheKey`: `hs_code:market:(year || "latest")`
(a year of `0` is falsy in JS and also yields `"latest"`). -/
def getCacheKey (hs_code market : String) (year : Option Nat) : String :=
  hs_code ++ ":" ++ market ++ ":" ++
    (match year with
     | some y => if y = 0 then "latest" else toString y
     | none => "latest")

/-- `TradeFlowService.isCacheValid`: `now - cacheTime < cacheTtl`, over
integers as in JS arithmetic. -/
def isCacheValid (cfg : TradeFlowServiceConfig) (timestamp now : Nat) : Bool :=
  (now : Int) - (timestamp : Int) < (cfg.cacheTtl : Int)

/-- The transform of a WITS response into `TradeFlowData` performed inside
`getTradeFlow` (placeholder constants for the fields the upstream does not
provide; `netWeight || 0` for the volume). -/
def toTradeFlowData (witsResponse : WitsTradeFlowResponse) : TradeFlowData :=
  { import_value_usd := witsResponse.tradeValue
    export_value_usd := 0
    growth_rate := 12.5
    top_exporters :=
      [{ country := "China", market_share := 35 },
       { country := "Germany", market_share := 15 },
       { country := "South Africa", market_share := 8 }]
    import_volume := witsResponse.netWeight.getD 0 }

/-- The observable outcome of one `getTradeFlow` invocation: the returned
envelope or thrown error, the cache contents afterwards, and how many
outbound `WitsClient` calls were issued. -/
structure TFOutcome where
  result : Except ApiError (ApiResponse TradeFlowData)
  cache : TFCache
  networkCalls : Nat

/-- The miss/stale path of `getTradeFlow`: fetch, transform, overwrite the
cache entry at the key, return a fresh success envelope. -/
def getTradeFlowFetchPath (cfg : TradeFlowServiceConfig)
    (fetch : WitsTradeFlowParams → WitsTradeFlowResponse)
    (cache : TFCache) (params : TFParams) (now : Nat) (cacheKey : String) : TFOutcome :=
  let witsResponse := fetch
    { reporter := cfg.defaultReporter
      partner := params.market
      productCode := params.hs_code
      year := params.year }
  let tradeFlowData := toTradeFlowData witsResponse
  { result := .ok (createSuccessResponse tradeFlowData
      { status := none, message := none,
        metadata := { noOverrides with
          source := some "WITS API", confidence_score := some 0.95 } }
      (toISO now))
    cache := cacheSet cache cacheKey { data := tradeFlowData, timestamp := now }
    networkCalls := 1 }

/-- `TradeFlowService.getTradeFlow`.  `fetch` stands for the successful
`witsClient.getTradeFlow` call; `now` is the clock at the invocation. -/
def getTradeFlow (cfg : TradeFlowServiceConfig)
    (fetch : WitsTradeFlowParams → WitsTradeFlowResponse)
    (cache : TFCache) (params : TFParams) (now : Nat) : TFOutcome :=
  if params.hs_code = "" then
    { result := .error (ValidationError "HS code is required for trade flow requests"
        [("params", .tfParams params)])
      cache := cache
      networkCalls := 0 }
  else if params.market = "" then
    { result := .error (ValidationError "Market is required for trade flow requests"
        [("params", .tfParams params)])
      cache := cache
      networkCalls := 0 }
  else
    let cacheKey := getCacheKey params.hs_code params.market params.year
    match cacheGet cache cacheKey with
    | some cachedItem =>
        if isCacheValid cfg cachedItem.timestamp now then
          { result := .ok (createCachedResponse cachedItem.data (toISO cachedItem.timestamp)
              { status := none, message := none,
                metadata := { noOverrides with
                  confidence_score := some 0.95, data_completeness := some "complete" } }
              (toISO now))
            cache := cache
            networkCalls := 0 }
        else
          getTradeFlowFetchPath cfg fetch cache params now cacheKey
    | none =>
        getTradeFlowFetchPath cfg fetch cache params now cacheKey

/-- `TradeFlowService.clearCache`. -/
def clearCache (_cache : TFCache) : TFCache :=
  []

/-! ## Concrete sample values used to instantiate the theorems -/

/-- A request with every field absent (`{}` cast to the params type). -/
def emptyParams : MIParams :=
  { type := none, hs_code := none, market := none, year := none, origin := none,
    destination := none, product_category := none, industry := none }

/-- A request carrying only a discriminant. -/
def paramsOfType (t : String) : MIParams :=
  { emptyParams with type := some t }

/-- Builder options carrying only an explicit status. -/
def statusOnlyOptions (s : Nat) : SuccessOptions :=
  { status := some s, message := none, metadata := noOverrides }

/-- A concrete upstream trade-flow response (the canonical-partner shape
used in `tests/wits-client.test.ts`). -/
def sampleWitsResponse : WitsTradeFlowResponse :=
  { reporter := "WLD", partner := "ARE", productCode := "210690", year := 2020,
    tradeValue := 5000000000, netWeight := some 250000, quantity := none,
    tradeFlow := "Import" }

/-- A concrete stored payload for cache scenarios. -/
def sampleTradeFlowData : TradeFlowData :=
  { import_value_usd := 1, export_value_usd := 2, growth_rate := 3,
    top_exporters := [], import_volume := 4 }

/-- A one-entry cache holding `sampleTradeFlowData` stamped at time 1000. -/
def sampleCache : TFCache :=
  [("210690:UAE:latest", { data := sampleTradeFlowData, timestamp := 1000 })]

/-- The default service configuration of the source constructor. -/
def sampleConfig : TradeFlowServiceConfig :=
  { defaultReporter := "WLD", cacheTtl := 3600000 }

/-- A stubbed upstream returning `sampleWitsResponse` for every call. -/
def sampleFetch : WitsTradeFlowParams → WitsTradeFlowResponse :=
  fun _ => sampleWitsResponse

/-- Valid trade-flow service parameters matching `sampleCache`'s key. -/
def sampleTFParams : TFParams :=
  { hs_code := "210690", market := "UAE", year := none }

/-- An upstream failure with no response received. -/
def failureNoResponse : UpstreamFailure :=
  { response := none, errMessage := "timeout of 10000ms exceeded" }

/-- An upstream 400 failure whose body carries a message. -/
def failure400 : UpstreamFailure :=
  { response := some { status := 400, body := some { message := some "bad hs code" } },
    errMessage := "Request failed with status code 400" }

/-- An upstream 404 failure with no parsed body. -/
def failure404 : UpstreamFailure :=
  { response := some { status := 404, body := none },
    errMessage := "Request failed with status code 404" }

/-- An upstream 500 failure whose body is `{message: "x"}`. -/
def failure500 : UpstreamFailure :=
  { response := some { status := 500, body := some { message := some "x" } },
    errMessage := "Request failed with status code 500" }

/-- An upstream failure with an unhandled status (418). -/
def failure418 : UpstreamFailure :=
  { response := some { status := 418, body := none },
    errMessage := "Request failed with status code 418" }

/-! ## Theorems -/

/-- Reading back the key just written: `Map.set` followed by `Map.get`. -/
theorem cacheGet_cacheSet (cache : TFCache) (key : String) (item : CacheItem) :
    cacheGet (cacheSet cache key item) key = some item := by
  induction cache with
  | nil => simp [cacheGet, cacheSet]
  | cons kv rest ih =>
      by_cases h : kv.1 = key
      · simp [cacheGet, cacheSet, h]
      · simp only [cacheSet, beq_iff_eq, h, if_false]
        simpa [cacheGet, h] using ih

/-- C6 counterexample: the country-code normalization does NOT return the
uppercased form of an unmapped token; `"xyz"` comes back as `"xyz"`, which
differs from its uppercased form `"XYZ"`. -/
theorem C6_counterexample :
    getCountryCode "xyz" = "xyz" ∧
    toUpperCase "xyz" = "XYZ" ∧
    getCountryCode "xyz" ≠ toUpperCase "xyz" := by
  decide

/-- C6 (amended): for every non-empty token whose uppercased form is not a
key of the Country Code Map, `getCountryCode` returns the token unchanged
(not uppercased). -/
theorem C6_unmapped_token_passthrough (token : String) (h1 : token ≠ "")
    (h2 : mapGet countryCodeMap (toUpperCase token) = none) :
    getCountryCode token = token := by
  simp [getCountryCode, h1, h2]

/-- C6 witness: the amended statement at the concrete token `"xyz"`. -/
theorem C6_unmapped_token_passthrough_witness :
    ("xyz" : String) ≠ "" ∧
    mapGet countryCodeMap (toUpperCase "xyz") = none ∧
    getCountryCode "xyz" = "xyz" :=
  ⟨by decide, by decide, C6_unmapped_token_passthrough "xyz" (by decide) (by decide)⟩

/-- C7: country-code normalization is case-insensitive for mapped tokens
(`"uae"` and `"UAE"` both map to `"ARE"`), an unmapped already-uppercase
token (`"XYZ"`) passes through unchanged, and an empty token yields the
fixed world code `"WLD"`. -/
theorem C7_country_code_case_insensitive :
    getCountryCode "uae" = "ARE" ∧
    getCountryCode "UAE" = "ARE" ∧
    getCountryCode "uae" = getCountryCode "UAE" ∧
    getCountryCode "XYZ" = "XYZ" ∧
    getCountryCode "" = "WLD" := by
  decide

/-- C8 counterexample: `createSuccessResponse` does not force `status` into
[200, 299]: supplying `status := 500` in the options yields a success
envelope whose status is 500. -/
theorem C8_counterexample :
    (createSuccessResponse (0 : Nat) (statusOnlyOptions 500) "T").status = 500 ∧
    ¬(200 ≤ (createSuccessResponse (0 : Nat) (statusOnlyOptions 500) "T").status ∧
      (createSuccessResponse (0 : Nat) (statusOnlyOptions 500) "T").status ≤ 299) := by
  decide

/-- C8 (amended): every envelope produced by `createSuccessResponse` has
status 200 when no status option is supplied and exactly the supplied
status otherwise (the builder does not clamp it into [200, 299]), and its
`data` field is exactly the supplied payload. -/
theorem C8_success_builder_status (T : Type) (data : T) (options : SuccessOptions)
    (now : String) :
    (options.status = none → (createSuccessResponse data options now).status = 200) ∧
    (∀ s : Nat, options.status = some s → (createSuccessResponse data options now).status = s) ∧
    (createSuccessResponse data options now).data = data := by
  refine ⟨?_, ?_, rfl⟩
  · intro h
    simp [createSuccessResponse, h]
  · intro s h
    simp [createSuccessResponse, h]

/-- C8 witness: default status 200, supplied status 204, payload preserved. -/
theorem C8_success_builder_status_witness :
    ((noOptions.status = none) ∧ (createSuccessResponse (7 : Nat) noOptions "T").status = 200) ∧
    ((statusOnlyOptions 204).status = some 204 ∧
      (createSuccessResponse (7 : Nat) (statusOnlyOptions 204) "T").status = 204) ∧
    (createSuccessResponse (7 : Nat) noOptions "T").data = 7 :=
  ⟨⟨rfl, (C8_success_builder_status Nat 7 noOptions "T").1 rfl⟩,
   ⟨rfl, (C8_success_builder_status Nat 7 (statusOnlyOptions 204) "T").2.1 204 rfl⟩,
   (C8_success_builder_status Nat 7 noOptions "T").2.2⟩

/-- C9: `normalizeTradeFlowResponse` overwrites exactly the `partner` field
with the caller's market token and leaves every other field unchanged; in
particular a response with partner `"ARE"` normalized for original token
`"UAE"` reads back partner `"UAE"`. -/
theorem C9_normalize_frame (response : WitsTradeFlowResponse) (market : String) :
    (normalizeTradeFlowResponse response market).partner = market ∧
    (normalizeTradeFlowResponse response market).reporter = response.reporter ∧
    (normalizeTradeFlowResponse response market).productCode = response.productCode ∧
    (normalizeTradeFlowResponse response market).year = response.year ∧
    (normalizeTradeFlowResponse response market).tradeValue = response.tradeValue ∧
    (normalizeTradeFlowResponse response market).netWeight = response.netWeight ∧
    (normalizeTradeFlowResponse response market).quantity = response.quantity ∧
    (normalizeTradeFlowResponse response market).tradeFlow = response.tradeFlow ∧
    sampleWitsResponse.partner = "ARE" ∧
    (normalizeTradeFlowResponse sampleWitsResponse "UAE").partner = "UAE" :=
  ⟨rfl, rfl, rfl, rfl, rfl, rfl, rfl, rfl, rfl, rfl⟩

/-- C4: `handleError` is a total function over every representable thrown
value and never throws: a taxonomy error converts via its own status and
code with `data = null`; a plain JS error yields status 500,
`INTERNAL_SERVER_ERROR`, `data = null`, and `details.original_error`
carrying the stack string, which contains the original message; any other
thrown value yields the same 500 envelope with its string description in
`details.original_error`. -/
theorem C4_handle_error_total (now : String) :
    (∀ e : ApiError,
      handleError (.api e) now =
        { status := e.status, data := none, message := e.message,
          error_code := e.error_code, details := e.details,
          metadata := { data_completeness := "incomplete", last_updated := now,
                        source := "Error", confidence_score := none } }) ∧
    (∀ msg trace : String,
      (handleError (.jsError msg trace) now).status = 500 ∧
      (handleError (.jsError msg trace) now).error_code = .INTERNAL_SERVER_ERROR ∧
      (handleError (.jsError msg trace) now).data = none ∧
      (handleError (.jsError msg trace) now).message = msg ∧
      (handleError (.jsError msg trace) now).details =
        [("original_error", .str (errStack msg trace))] ∧
      ∃ l r : String, errStack msg trace = l ++ (msg ++ r)) ∧
    (∀ v : String,
      (handleError (.other v) now).status = 500 ∧
      (handleError (.other v) now).error_code = .INTERNAL_SERVER_ERROR ∧
      (handleError (.other v) now).data = none ∧
      (handleError (.other v) now).details = [("original_error", .str v)]) := by
  refine ⟨fun e => rfl, fun msg trace => ⟨rfl, rfl, rfl, rfl, rfl, "Error: ", "\n" ++ trace, ?_⟩,
    fun v => ⟨rfl, rfl, rfl, rfl⟩⟩
  simp [errStack, String.append_assoc]

/-- C1: `handle` fails with a `ValidationError` when the discriminant is
missing or falsy; an unrecognized discriminant fails with a
`ValidationError` whose message names that string; each of the five known
literals makes exactly its own type guard true and routes to exactly that
branch handler. -/
theorem C1_dispatch_total (p : MIParams) (now : String) :
    (presentS p.type = false →
      handle p now = .error (ValidationError "Request type is required"
        [("params", .reqParams p)])) ∧
    (∀ t : String, p.type = some t → t ≠ "" →
      t ≠ "trade_flow" → t ≠ "tariff" → t ≠ "market_size" → t ≠ "buyers" →
      t ≠ "competitive_landscape" →
      handle p now = .error (ValidationError ("Unsupported request type: " ++ t)
        [("params", .reqParams p)])) ∧
    (p.type = some "trade_flow" →
      isTradeFlowParams p = true ∧ isTariffParams p = false ∧ isMarketSizeParams p = false ∧
      isBuyersParams p = false ∧ isCompetitiveLandscapeParams p = false ∧
      handle p now = handleTradeFlow p now) ∧
    (p.type = some "tariff" →
      isTradeFlowParams p = false ∧ isTariffParams p = true ∧ isMarketSizeParams p = false ∧
      isBuyersParams p = false ∧ isCompetitiveLandscapeParams p = false ∧
      handle p now = handleTariff p now) ∧
    (p.type = some "market_size" →
      isTradeFlowParams p = false ∧ isTariffParams p = false ∧ isMarketSizeParams p = true ∧
      isBuyersParams p = false ∧ isCompetitiveLandscapeParams p = false ∧
      handle p now = handleMarketSize p now) ∧
    (p.type = some "buyers" →
      isTradeFlowParams p = false ∧ isTariffParams p = false ∧ isMarketSizeParams p = false ∧
      isBuyersParams p = true ∧ isCompetitiveLandscapeParams p = false ∧
      handle p now = handleBuyers p now) ∧
    (p.type = some "competitive_landscape" →
      isTradeFlowParams p = false ∧ isTariffParams p = false ∧ isMarketSizeParams p = false ∧
      isBuyersParams p = false ∧ isCompetitiveLandscapeParams p = true ∧
      handle p now = handleCompetitiveLandscape p now) := by
  refine ⟨?_, ?_, ?_, ?_, ?_, ?_, ?_⟩
  · intro h
    simp [handle, h]
  · intro t ht h0 h1 h2 h3 h4 h5
    simp [handle, presentS, isTradeFlowParams, isTariffParams, isMarketSizeParams,
      isBuyersParams, isCompetitiveLandscapeParams, ht, h0, h1, h2, h3, h4, h5]
  all_goals
    intro h
    refine ⟨?_, ?_, ?_, ?_, ?_, ?_⟩ <;>
      simp [handle, presentS, isTradeFlowParams, isTariffParams, isMarketSizeParams,
        isBuyersParams, isCompetitiveLandscapeParams, h]

/-- C1 witness: the dispatch facts at concrete requests, one per case. -/
theorem C1_dispatch_total_witness :
    handle emptyParams "T" = .error (ValidationError "Request type is required"
      [("params", .reqParams emptyParams)]) ∧
    handle (paramsOfType "bogus") "T" = .error
      (ValidationError ("Unsupported request type: " ++ "bogus")
        [("params", .reqParams (paramsOfType "bogus"))]) ∧
    handle (paramsOfType "trade_flow") "T" = handleTradeFlow (paramsOfType "trade_flow") "T" ∧
    handle (paramsOfType "tariff") "T" = handleTariff (paramsOfType "tariff") "T" ∧
    handle (paramsOfType "market_size") "T" = handleMarketSize (paramsOfType "market_size") "T" ∧
    handle (paramsOfType "buyers") "T" = handleBuyers (paramsOfType "buyers") "T" ∧
    handle (paramsOfType "competitive_landscape") "T" =
      handleCompetitiveLandscape (paramsOfType "competitive_landscape") "T" :=
  ⟨(C1_dispatch_total emptyParams "T").1 (by decide),
   (C1_dispatch_total (paramsOfType "bogus") "T").2.1 "bogus" rfl
     (by decide) (by decide) (by decide) (by decide) (by decide) (by decide),
   ((C1_dispatch_total (paramsOfType "trade_flow") "T").2.2.1 rfl).2.2.2.2.2,
   ((C1_dispatch_total (paramsOfType "tariff") "T").2.2.2.1 rfl).2.2.2.2.2,
   ((C1_dispatch_total (paramsOfType "market_size") "T").2.2.2.2.1 rfl).2.2.2.2.2,
   ((C1_dispatch_total (paramsOfType "buyers") "T").2.2.2.2.2.1 rfl).2.2.2.2.2,
   ((C1_dispatch_total (paramsOfType "competitive_landscape") "T").2.2.2.2.2.2 rfl).2.2.2.2.2⟩

/-- C2: in every branch, omitting a required field produces a
`ValidationError` (status 400, code VALIDATION_ERROR — no other kind)
whose message names the missing field, and fields are checked in the fixed
per-variant order: TradeFlow `hs_code` then `market`; Tariff `hs_code`,
`origin`, `destination`; MarketSize `product_category` then `market`;
Buyers `industry` then `market`; CompetitiveLandscape `product_category`
then `market`. -/
theorem C2_required_fields (p : MIParams) (now : String) :
    (p.type = some "trade_flow" → presentS p.hs_code = false →
      handle p now = .error (ValidationError "HS code is required for trade flow requests"
        [("params", .reqParams p)])) ∧
    (p.type = some "trade_flow" → presentS p.hs_code = true → presentS p.market = false →
      handle p now = .error (ValidationError "Market is required for trade flow requests"
        [("params", .reqParams p)])) ∧
    (p.type = some "tariff" → presentS p.hs_code = false →
      handle p now = .error (ValidationError "HS code is required for tariff requests"
        [("params", .reqParams p)])) ∧
    (p.type = some "tariff" → presentS p.hs_code = true → presentS p.origin = false →
      handle p now = .error (ValidationError "Origin country is required for tariff requests"
        [("params", .reqParams p)])) ∧
    (p.type = some "tariff" → presentS p.hs_code = true → presentS p.origin = true →
      presentS p.destination = false →
      handle p now = .error (ValidationError "Destination country is required for tariff requests"
        [("params", .reqParams p)])) ∧
    (p.type = some "market_size" → presentS p.product_category = false →
      handle p now = .error (ValidationError "Product category is required for market size requests"
        [("params", .reqParams p)])) ∧
    (p.type = some "market_size" → presentS p.product_category = true →
      presentS p.market = false →
      handle p now = .error (ValidationError "Market is required for market size requests"
        [("params", .reqParams p)])) ∧
    (p.type = some "buyers" → presentS p.industry = false →
      handle p now = .error (ValidationError "Industry is required for buyers requests"
        [("params", .reqParams p)])) ∧
    (p.type = some "buyers" → presentS p.industry = true → presentS p.market = false →
      handle p now = .error (ValidationError "Market is required for buyers requests"
        [("params", .reqParams p)])) ∧
    (p.type = some "competitive_landscape" → presentS p.product_category = false →
      handle p now = .error
        (ValidationError "Product category is required for competitive landscape requests"
          [("params", .reqParams p)])) ∧
    (p.type = some "competitive_landscape" → presentS p.product_category = true →
      presentS p.market = false →
      handle p now = .error
        (ValidationError "Market is required for competitive landscape requests"
          [("params", .reqParams p)])) := by
  refine ⟨?_, ?_, ?_, ?_, ?_, ?_, ?_, ?_, ?_, ?_, ?_⟩
  all_goals intros
  all_goals simp_all [handle, handleTradeFlow, handleTariff, handleMarketSize, handleBuyers,
    handleCompetitiveLandscape, presentS, isTradeFlowParams, isTariffParams, isMarketSizeParams,
    isBuyersParams, isCompetitiveLandscapeParams]

/-- C2 witness: every missing-field case at a concrete request, with the
earlier fields of the variant's order filled in where the case needs them. -/
theorem C2_required_fields_witness :
    handle (paramsOfType "trade_flow") "T" = .error
      (ValidationError "HS code is required for trade flow requests"
        [("params", .reqParams (paramsOfType "trade_flow"))]) ∧
    handle { paramsOfType "trade_flow" with hs_code := some "210690" } "T" = .error
      (ValidationError "Market is required for trade flow requests"
        [("params", .reqParams { paramsOfType "trade_flow" with hs_code := some "210690" })]) ∧
    handle (paramsOfType "tariff") "T" = .error
      (ValidationError "HS code is required for tariff requests"
        [("params", .reqParams (paramsOfType "tariff"))]) ∧
    handle { paramsOfType "tariff" with hs_code := some "210690" } "T" = .error
      (ValidationError "Origin country is required for tariff requests"
        [("params", .reqParams { paramsOfType "tariff" with hs_code := some "210690" })]) ∧
    handle { paramsOfType "tariff" with hs_code := some "210690", origin := some "ZAF" } "T" =
      .error (ValidationError "Destination country is required for tariff requests"
        [("params", .reqParams
          { paramsOfType "tariff" with hs_code := some "210690", origin := some "ZAF" })]) ∧
    handle (paramsOfType "market_size") "T" = .error
      (ValidationError "Product category is required for market size requests"
        [("params", .reqParams (paramsOfType "market_size"))]) ∧
    handle { paramsOfType "market_size" with product_category := some "foods" } "T" = .error
      (ValidationError "Market is required for market size requests"
        [("params", .reqParams
          { paramsOfType "market_size" with product_category := some "foods" })]) ∧
    handle (paramsOfType "buyers") "T" = .error
      (ValidationError "Industry is required for buyers requests"
        [("params", .reqParams (paramsOfType "buyers"))]) ∧
    handle { paramsOfType "buyers" with industry := some "foods" } "T" = .error
      (ValidationError "Market is required for buyers requests"
        [("params", .reqParams { paramsOfType "buyers" with industry := some "foods" })]) ∧
    handle (paramsOfType "competitive_landscape") "T" = .error
      (ValidationError "Product category is required for competitive landscape requests"
        [("params", .reqParams (paramsOfType "competitive_landscape"))]) ∧
    handle { paramsOfType "competitive_landscape" with product_category := some "foods" } "T" =
      .error (ValidationError "Market is required for competitive landscape requests"
        [("params", .reqParams
          { paramsOfType "competitive_landscape" with product_category := some "foods" })]) :=
  ⟨(C2_required_fields (paramsOfType "trade_flow") "T").1 rfl (by decide),
   (C2_required_fields _ "T").2.1 rfl (by decide) (by decide),
   (C2_required_fields (paramsOfType "tariff") "T").2.2.1 rfl (by decide),
   (C2_required_fields _ "T").2.2.2.1 rfl (by decide) (by decide),
   (C2_required_fields _ "T").2.2.2.2.1 rfl (by decide) (by decide) (by decide),
   (C2_required_fields (paramsOfType "market_size") "T").2.2.2.2.2.1 rfl (by decide),
   (C2_required_fields _ "T").2.2.2.2.2.2.1 rfl (by decide) (by decide),
   (C2_required_fields (paramsOfType "buyers") "T").2.2.2.2.2.2.2.1 rfl (by decide),
   (C2_required_fields _ "T").2.2.2.2.2.2.2.2.1 rfl (by decide) (by decide),
   (C2_required_fields (paramsOfType "competitive_landscape") "T").2.2.2.2.2.2.2.2.2.1
     rfl (by decide),
   (C2_required_fields _ "T").2.2.2.2.2.2.2.2.2.2 rfl (by decide) (by decide)⟩

/-- C3: the interceptor's uniform error translation — no response received
maps to `ExternalApiError` ("unreachable"); status 400 maps to
`ValidationError` carrying the upstream body's message or the generic
fallback; status 404 maps to `ValidationError` (not `NotFoundError`) with
a "resource was not found" message; status ≥ 500 maps to
`ExternalApiError` whose message contains the body's message; any other
failing status maps to `ExternalApiError` with the upstream status
embedded in `details`. -/
theorem C3_error_translation (e : UpstreamFailure) :
    (e.response = none →
      interceptResponseError e =
        ExternalApiError "WITS API is unreachable" [("originalError", .str e.errMessage)]) ∧
    (∀ r : UpstreamResponse, e.response = some r → r.status = 400 →
      interceptResponseError e =
        ValidationError ((bodyMessage r).getD "Invalid request to WITS API")
          [("originalError", .upstream r.body)]) ∧
    (∀ r : UpstreamResponse, e.response = some r → r.status = 404 →
      interceptResponseError e =
        ValidationError "The requested resource was not found in WITS API"
          [("originalError", .upstream r.body)]) ∧
    (∀ r : UpstreamResponse, e.response = some r → 500 ≤ r.status →
      interceptResponseError e =
        ExternalApiError ("WITS API server error: " ++ (bodyMessage r).getD (toString r.status))
          [("originalError", .upstream r.body)] ∧
      (∀ m : String, bodyMessage r = some m →
        ∃ l : String, (interceptResponseError e).message = l ++ m)) ∧
    (∀ r : UpstreamResponse, e.response = some r → r.status ≠ 400 → r.status ≠ 404 →
      r.status < 500 →
      (interceptResponseError e).error_code = .EXTERNAL_API_ERROR ∧
      (interceptResponseError e).status = 502 ∧
      ("status", DVal.num r.status) ∈ (interceptResponseError e).details) := by
  refine ⟨?_, ?_, ?_, ?_, ?_⟩
  · intro h
    simp [interceptResponseError, h]
  · intro r h h400
    simp [interceptResponseError, h, h400]
  · intro r h h404
    have h1 : r.status ≠ 400 := by omega
    simp [interceptResponseError, h, h1, h404]
  · intro r h h500
    have h1 : r.status ≠ 400 := by omega
    have h2 : r.status ≠ 404 := by omega
    refine ⟨by simp [interceptResponseError, h, h1, h2, h500], ?_⟩
    intro m hm
    refine ⟨"WITS API server error: ", ?_⟩
    simp [interceptResponseError, h, h1, h2, h500, hm, ExternalApiError]
  · intro r h h1 h2 hlt
    have h3 : ¬ (500 ≤ r.status) := by omega
    refine ⟨?_, ?_, ?_⟩ <;>
      simp [interceptResponseError, h, h1, h2, h3, ExternalApiError]

/-- C3 witness: the translation at one concrete failure per case. -/
theorem C3_error_translation_witness :
    interceptResponseError failureNoResponse =
      ExternalApiError "WITS API is unreachable"
        [("originalError", .str "timeout of 10000ms exceeded")] ∧
    interceptResponseError failure400 =
      ValidationError "bad hs code"
        [("originalError", .upstream (some { message := some "bad hs code" }))] ∧
    interceptResponseError failure404 =
      ValidationError "The requested resource was not found in WITS API"
        [("originalError", .upstream none)] ∧
    interceptResponseError failure500 =
      ExternalApiError "WITS API server error: x"
        [("originalError", .upstream (some { message := some "x" }))] ∧
    (∃ l : String, (interceptResponseError failure500).message = l ++ "x") ∧
    (interceptResponseError failure418).error_code = .EXTERNAL_API_ERROR ∧
    (interceptResponseError failure418).status = 502 ∧
    ("status", DVal.num 418) ∈ (interceptResponseError failure418).details :=
  ⟨(C3_error_translation failureNoResponse).1 rfl,
   (C3_error_translation failure400).2.1 _ rfl rfl,
   (C3_error_translation failure404).2.2.1 _ rfl rfl,
   ((C3_error_translation failure500).2.2.2.1 _ rfl (by decide)).1,
   ((C3_error_translation failure500).2.2.2.1 _ rfl (by decide)).2 "x" rfl,
   ((C3_error_translation failure418).2.2.2.2 _ rfl (by decide) (by decide) (by decide)).1,
   ((C3_error_translation failure418).2.2.2.2 _ rfl (by decide) (by decide) (by decide)).2.1,
   ((C3_error_translation failure418).2.2.2.2 _ rfl (by decide) (by decide) (by decide)).2.2⟩

/-- An ISO-rendered timestamp is never the empty string (so the metadata
merge's truthiness check keeps it). -/
theorem toISO_ne_empty (t : Nat) : toISO t ≠ "" := by
  intro h
  have h2 := congrArg String.length h
  rw [toISO, String.length_append] at h2
  have h3 : ("ISO:").length = 4 := rfl
  have h4 : ("" : String).length = 0 := rfl
  rw [h3, h4] at h2
  omega

/-- C5: with the cache keyed by `hs_code:market:(year or "latest")` — a
fresh entry (`now - timestamp < cacheTtl`) is served from the cache with
no network call, leaving the cache unchanged, with `metadata.source =
"Cache"` and `last_updated` equal to the entry's timestamp; a stale entry
is treated as a miss: one network call, and the entry is overwritten with
the freshly derived data stamped at the current time; consequently a miss
followed within the TTL window by an identical call issues exactly one
network call in total, the second call served from cache. -/
theorem C5_cache_ttl (cfg : TradeFlowServiceConfig)
    (fetch : WitsTradeFlowParams → WitsTradeFlowResponse)
    (cache : TFCache) (p : TFParams) (item : CacheItem) (now now2 : Nat) :
    (p.hs_code ≠ "" → p.market ≠ "" →
      cacheGet cache (getCacheKey p.hs_code p.market p.year) = some item →
      isCacheValid cfg item.timestamp now = true →
      (getTradeFlow cfg fetch cache p now).networkCalls = 0 ∧
      (getTradeFlow cfg fetch cache p now).cache = cache ∧
      ∃ resp : ApiResponse TradeFlowData,
        (getTradeFlow cfg fetch cache p now).result = .ok resp ∧
        resp.data = item.data ∧
        resp.metadata.source = "Cache" ∧
        resp.metadata.last_updated = toISO item.timestamp) ∧
    (p.hs_code ≠ "" → p.market ≠ "" →
      cacheGet cache (getCacheKey p.hs_code p.market p.year) = some item →
      isCacheValid cfg item.timestamp now = false →
      (getTradeFlow cfg fetch cache p now).networkCalls = 1 ∧
      cacheGet (getTradeFlow cfg fetch cache p now).cache
          (getCacheKey p.hs_code p.market p.year) =
        some { data := toTradeFlowData (fetch
                 { reporter := cfg.defaultReporter, partner := p.market,
                   productCode := p.hs_code, year := p.year }),
               timestamp := now } ∧
      ∃ resp : ApiResponse TradeFlowData,
        (getTradeFlow cfg fetch cache p now).result = .ok resp ∧
        resp.data = toTradeFlowData (fetch
          { reporter := cfg.defaultReporter, partner := p.market,
            productCode := p.hs_code, year := p.year }) ∧
        resp.metadata.source = "WITS API") ∧
    (p.hs_code ≠ "" → p.market ≠ "" →
      cacheGet cache (getCacheKey p.hs_code p.market p.year) = none →
      (now2 : Int) - (now : Int) < (cfg.cacheTtl : Int) →
      (getTradeFlow cfg fetch cache p now).networkCalls = 1 ∧
      (getTradeFlow cfg fetch (getTradeFlow cfg fetch cache p now).cache p now2).networkCalls
        = 0 ∧
      ∃ resp : ApiResponse TradeFlowData,
        (getTradeFlow cfg fetch (getTradeFlow cfg fetch cache p now).cache p now2).result =
          .ok resp ∧
        resp.metadata.source = "Cache" ∧
        resp.metadata.last_updated = toISO now) := by
  refine ⟨?_, ?_, ?_⟩
  · intro hhs hm hc hv
    refine ⟨?_, ?_, ?_⟩ <;>
      simp [getTradeFlow, hhs, hm, hc, hv, createCachedResponse, createSuccessResponse,
        orElseS, noOverrides, toISO_ne_empty]
  · intro hhs hm hc hv
    refine ⟨?_, ?_, ?_⟩ <;>
      simp [getTradeFlow, getTradeFlowFetchPath, hhs, hm, hc, hv, cacheGet_cacheSet,
        createSuccessResponse, orElseS, noOverrides]
  · intro hhs hm hc hfresh
    have hv : isCacheValid cfg now now2 = true := by
      simp [isCacheValid]
      omega
    have hstep : (getTradeFlow cfg fetch cache p now).cache =
        cacheSet cache (getCacheKey p.hs_code p.market p.year)
          { data := toTradeFlowData (fetch
              { reporter := cfg.defaultReporter, partner := p.market,
                productCode := p.hs_code, year := p.year }),
            timestamp := now } := by
      simp [getTradeFlow, getTradeFlowFetchPath, hhs, hm, hc]
    refine ⟨?_, ?_, ?_⟩
    · simp [getTradeFlow, getTradeFlowFetchPath, hhs, hm, hc]
    · rw [hstep]
      simp [getTradeFlow, hhs, hm, cacheGet_cacheSet, hv]
    · rw [hstep]
      simp [getTradeFlow, hhs, hm, cacheGet_cacheSet, hv, createCachedResponse,
        createSuccessResponse, orElseS, noOverrides, toISO_ne_empty]

/-- C5 witness: the three cache behaviours at concrete instances — a fresh
hit at time 2000 on an entry stamped 1000, a stale hit at time 4000000
(TTL 3600000), and a miss at 5000 followed by a hit at 6000. -/
theorem C5_cache_ttl_witness :
    ((getTradeFlow sampleConfig sampleFetch sampleCache sampleTFParams 2000).networkCalls = 0 ∧
     (getTradeFlow sampleConfig sampleFetch sampleCache sampleTFParams 2000).cache =
       sampleCache ∧
     ∃ resp : ApiResponse TradeFlowData,
       (getTradeFlow sampleConfig sampleFetch sampleCache sampleTFParams 2000).result =
         .ok resp ∧
       resp.data = sampleTradeFlowData ∧
       resp.metadata.source = "Cache" ∧
       resp.metadata.last_updated = toISO 1000) ∧
    ((getTradeFlow sampleConfig sampleFetch sampleCache sampleTFParams 4000000).networkCalls
       = 1 ∧
     cacheGet (getTradeFlow sampleConfig sampleFetch sampleCache sampleTFParams 4000000).cache
         (getCacheKey "210690" "UAE" none) =
       some { data := toTradeFlowData sampleWitsResponse, timestamp := 4000000 } ∧
     ∃ resp : ApiResponse TradeFlowData,
       (getTradeFlow sampleConfig sampleFetch sampleCache sampleTFParams 4000000).result =
         .ok resp ∧
       resp.data = toTradeFlowData sampleWitsResponse ∧
       resp.metadata.source = "WITS API") ∧
    ((getTradeFlow sampleConfig sampleFetch [] sampleTFParams 5000).networkCalls = 1 ∧
     (getTradeFlow sampleConfig sampleFetch
         (getTradeFlow sampleConfig sampleFetch [] sampleTFParams 5000).cache
         sampleTFParams 6000).networkCalls = 0 ∧
     ∃ resp : ApiResponse TradeFlowData,
       (getTradeFlow sampleConfig sampleFetch
           (getTradeFlow sampleConfig sampleFetch [] sampleTFParams 5000).cache
           sampleTFParams 6000).result = .ok resp ∧
       resp.metadata.source = "Cache" ∧
       resp.metadata.last_updated = toISO 5000) :=
  ⟨(C5_cache_ttl sampleConfig sampleFetch sampleCache sampleTFParams
      { data := sampleTradeFlowData, timestamp := 1000 } 2000 0).1
      (by decide) (by decide) rfl (by decide),
   (C5_cache_ttl sampleConfig sampleFetch sampleCache sampleTFParams
      { data := sampleTradeFlowData, timestamp := 1000 } 4000000 0).2.1
      (by decide) (by decide) rfl (by decide),
   (C5_cache_ttl sampleConfig sampleFetch [] sampleTFParams
      { data := sampleTradeFlowData, timestamp := 1000 } 5000 6000).2.2
      (by decide) (by decide) rfl (by decide)⟩

/-- C10: invalid trade-flow service parameters (empty or missing `hs_code`
or `market`) make `getTradeFlow` throw a `ValidationError` before any
cache read, cache write, or network call: the cache is unchanged and no
`WitsClient` call is issued. -/
theorem C10_validation_atomic (cfg : TradeFlowServiceConfig)
    (fetch : WitsTradeFlowParams → WitsTradeFlowResponse)
    (cache : TFCache) (p : TFParams) (now : Nat)
    (h : p.hs_code = "" ∨ p.market = "") :
    (getTradeFlow cfg fetch cache p now).cache = cache ∧
    (getTradeFlow cfg fetch cache p now).networkCalls = 0 ∧
    ∃ err : ApiError,
      (getTradeFlow cfg fetch cache p now).result = .error err ∧
      err.error_code = .VALIDATION_ERROR ∧
      err.status = 400 := by
  by_cases hhs : p.hs_code = ""
  · refine ⟨?_, ?_, ?_⟩ <;> simp [getTradeFlow, hhs, ValidationError]
  · have hm : p.market = "" := h.resolve_left hhs
    refine ⟨?_, ?_, ?_⟩ <;> simp [getTradeFlow, hhs, hm, ValidationError]

/-- C10 witness: a request with `hs_code` empty leaves a one-entry cache
untouched and issues no call. -/
theorem C10_validation_atomic_witness :
    (getTradeFlow sampleConfig sampleFetch sampleCache
        { hs_code := "", market := "UAE", year := none } 2000).cache = sampleCache ∧
    (getTradeFlow sampleConfig sampleFetch sampleCache
        { hs_code := "", market := "UAE", year := none } 2000).networkCalls = 0 ∧
    ∃ err : ApiError,
      (getTradeFlow sampleConfig sampleFetch sampleCache
          { hs_code := "", market := "UAE", year := none } 2000).result = .error err ∧
      err.error_code = .VALIDATION_ERROR ∧
      err.status = 400 :=
  C10_validation_atomic sampleConfig sampleFetch sampleCache
    { hs_code := "", market := "UAE", year := none } 2000 (Or.inl rfl)

end MIP
